import Mathlib

/-!
Verification of `src/buscador_3M.py`, a Streamlit lookup tool that loads a
CSV export of a Google Sheet, filters rows by keyword match on the `ABDESC`
description column and renders each matching row with a Code128 barcode of
its `Folio Rebuss` value.

The embedding is shallow: rows become a Lean structure, the pandas column
operations of `load_data` become explicit functions on `Option String`
cells (a missing cell is `none`, pandas `NaN`), the keyword filter becomes
`List.filter`, and the script's top-level control flow becomes a pure
function from the loaded table and the query to a view.  The third-party
barcode writer is an external collaborator of the program, so
`generate_barcode` is parameterized by the encoder; a concrete model of the
Code128 symbology, written from the specification, instantiates it where a
claim needs concrete success or failure of the encoder.
-/

namespace Buscador

/-! ## String primitives

Python string operations used by the script, translated to executable Lean
functions over `String`/`List Char`.  `str.lower` is modelled on the ASCII
range (the range the data and the queries use); `str.split()` with no
argument splits on runs of whitespace and never yields empty tokens;
`needle in hay` is contiguous-substring containment. -/

/-- Python `str.lower` on one character, ASCII range: `A`..`Z` (codepoints
65..90) map 32 codepoints up, everything else is unchanged. -/
def charToLower (c : Char) : Char :=
  if 65 ≤ c.toNat ∧ c.toNat ≤ 90 then Char.ofNat (c.toNat + 32) else c

/-- Python `str.lower` (lines 88 and 110 of the script). -/
def strToLower (s : String) : String :=
  ⟨s.data.map charToLower⟩

/-- The whitespace characters Python's `str.split()` separates on
(space, tab, newline, carriage return, vertical tab, form feed). -/
def isSpaceChar (c : Char) : Bool :=
  c == ' ' || c == '\t' || c == '\n' || c == '\r' ||
    c == Char.ofNat 11 || c == Char.ofNat 12

/-- Accumulator for `pySplit`: `cur` holds the current token reversed. -/
def pySplitAux (cur : List Char) : List Char → List (List Char)
  | [] => if cur.isEmpty then [] else [cur.reverse]
  | c :: cs =>
    if isSpaceChar c then
      if cur.isEmpty then pySplitAux [] cs else cur.reverse :: pySplitAux [] cs
    else pySplitAux (c :: cur) cs

/-- Python `str.split()` with no argument: split on runs of whitespace,
dropping leading and trailing whitespace; no empty token is produced
(line 110 of the script). -/
def pySplit (s : String) : List String :=
  (pySplitAux [] s.data).map (fun l => ⟨l⟩)

/-- Does `hay` start with `needle`? -/
def charsStart : List Char → List Char → Bool
  | _, [] => true
  | [], _ :: _ => false
  | h :: hs, n :: ns => h == n && charsStart hs ns

/-- Does `hay` contain `needle` as a contiguous run? -/
def charsHaveSub : List Char → List Char → Bool
  | [], needle => needle.isEmpty
  | h :: hs, needle => charsStart (h :: hs) needle || charsHaveSub hs needle

/-- Python `needle in hay` for strings: substring containment
(line 113 of the script, `keyword in x`). -/
def strContains (hay needle : String) : Bool :=
  charsHaveSub hay.data needle.data

/-! ## Data model

`load_data` (lines 71–94) reads the sheet restricted to the five columns
`Folio Rebuss`, `ABASSU`, `ABDESC`, `ABSER#`, `PLDESC`, coerced to text by
`dtype=str`; a missing cell is pandas `NaN`, modelled as `none`.  Line 88
derives the search column: `df['ABDESC'].str.lower().fillna('')`. -/

/-- A parsed CSV row restricted to the columns the script uses
(`usecols`, lines 84–85); each cell is text or missing. -/
structure RawRow where
  folioRebuss : Option String
  abassu : Option String
  abdesc : Option String
  abserNum : Option String
  pldesc : Option String
deriving DecidableEq

/-- A loaded row: the raw columns plus the derived `search_col`. -/
structure Row where
  folioRebuss : Option String
  abassu : Option String
  abdesc : Option String
  abserNum : Option String
  pldesc : Option String
  search_col : String
deriving DecidableEq

/-- pandas `Series.str.lower()`: missing cells stay missing. -/
def strLowerOpt : Option String → Option String
  | none => none
  | some s => some (strToLower s)

/-- pandas `Series.fillna(d)` on a single text cell. -/
def fillna (d : String) : Option String → String
  | none => d
  | some s => s

/-- Line 88: the derived search cell,
`ABDESC.str.lower().fillna('')`. -/
def searchCol (abdesc : Option String) : String :=
  fillna "" (strLowerOpt abdesc)

/-- One row after `load_data` has added `search_col` (line 88). -/
def mkRow (r : RawRow) : Row :=
  { folioRebuss := r.folioRebuss, abassu := r.abassu, abdesc := r.abdesc,
    abserNum := r.abserNum, pldesc := r.pldesc,
    search_col := searchCol r.abdesc }

/-- `load_data` (lines 71–94).  The network fetch and CSV parse are
external; their outcome is passed in as an `Except` (the body of the `try`
up to line 87).  On success the search column is derived and the table
returned with no message; on any failure the function returns an empty
table together with the user-facing error message (`st.error`, line 91) —
it is total, so no exception reaches the caller. -/
def load_data (fetched : Except String (List RawRow)) :
    List Row × Option String :=
  match fetched with
  | .ok raws => (raws.map mkRow, none)
  | .error e =>
    ([], some ("Error al cargar los datos desde Google Sheets: " ++ e))

/-! ## Barcode generation

`generate_barcode` (lines 48–65) passes `str(folio)` to the third-party
`Code128` writer inside `try`/`except`, returning the written buffer on
success and `None` on any exception.  The writer is outside the program,
so it is a parameter `encode`; the written buffer is a list of bytes. -/

/-- An image byte buffer (`io.BytesIO`). -/
abbrev Buffer := List Nat

/-- The writer options of line 59:
`{'write_text': True, 'font_size': 10, 'module_height': 12.0}`. -/
structure BarcodeOptions where
  write_text : Bool
  font_size : Nat
  module_height : Nat
deriving DecidableEq

/-- The concrete options the script passes (line 59); `module_height` is
the float `12.0`, carried through uninterpreted as `12`. -/
def barcodeOptions : BarcodeOptions :=
  { write_text := true, font_size := 10, module_height := 12 }

/-- Line 52, `code = str(folio)`: the folio cell as text; Python's `str`
of pandas `NaN` is the string `"nan"`. -/
def strOfFolio : Option String → String
  | some s => s
  | none => "nan"

/-- An external Code128 encoder: given the code string and the writer
options, either the written image bytes or an error. -/
abbrev Encoder := String → BarcodeOptions → Except String Buffer

/-- `generate_barcode` (lines 48–65): encode `str(folio)` — the raw
string, with no zero padding — and return the buffer, or `none` when the
encoder raises (the `except` branch, line 65).  Total: no exception
escapes. -/
def generate_barcode (encode : Encoder) (folio : Option String) :
    Option Buffer :=
  match encode (strOfFolio folio) barcodeOptions with
  | .ok b => some b
  | .error _ => none

/-- Modelled from the spec: the third-party barcode library (an external
collaborator, out of scope of the source).  Its Code128 symbology is
"a variable-length alphanumeric symbology with human-readable text
beneath": it accepts any non-empty string of ASCII characters — letters
included — producing a non-empty image buffer, and rejects other input. -/
def code128Model : Encoder := fun code _opts =>
  if code ≠ "" ∧ ∀ c ∈ code.data, c.toNat < 128 then
    .ok (code.data.map Char.toNat)
  else
    .error "character not encodable in Code128"

/-! ## Search, rendering and the top-level view

Lines 98–154: the script loads the table, shows the query box only when
the table is non-empty, and for a non-empty query filters the rows and
renders each with its barcode image, or a per-row warning when
`generate_barcode` returned `None`. -/

/-- Lines 109–114: tokenize the lowercased query on whitespace and keep
the rows whose `search_col` contains every token as a substring. -/
def filterRows (query : String) (df : List Row) : List Row :=
  let keywords := pySplit (strToLower query)
  df.filter (fun r => keywords.all (fun kw => strContains r.search_col kw))

/-- One displayed result row (lines 121–146): the row's fields and its
barcode cell — `some` buffer shown as an image (line 142), `none` shown
as the warning "No se pudo generar el código de barras" (line 145). -/
structure RenderedRow where
  row : Row
  barcodeCell : Option Buffer
deriving DecidableEq

/-- Render one matching row (lines 121–146). -/
def renderRow (encode : Encoder) (r : Row) : RenderedRow :=
  { row := r, barcodeCell := generate_barcode encode r.folioRebuss }

/-- The result loop (line 121): every matching row is rendered, in order;
a failed barcode for one row does not stop the loop. -/
def renderAll (encode : Encoder) (rows : List Row) : List RenderedRow :=
  rows.map (renderRow encode)

/-- The three top-level states of the script. -/
inductive AppView where
  /-- The table is empty (load failed): warning of line 153. -/
  | loadFailed : AppView
  /-- Empty query: the prompt `st.info` of line 151. -/
  | awaitingQuery : AppView
  /-- Non-empty query: the rendered result rows (possibly none). -/
  | results : List RenderedRow → AppView
deriving DecidableEq

/-- Lines 101–154: `if not df.empty:` guards the search box; inside,
`if search_query:` (Python truthiness: any non-empty string) selects
between the result list and the awaiting-input prompt. -/
def appView (encode : Encoder) (df : List Row) (query : String) : AppView :=
  if df.isEmpty then .loadFailed
  else if query = "" then .awaitingQuery
  else .results (renderAll encode (filterRows query df))

/-- The property claim C5 asserts of the renderer, written from the spec's
words for comparison with the source: the string handed to the symbology
(`code` of line 52) is the folio padded to one fixed digit length, so all
encoded strings share that length. -/
def padsToFixedLength : Prop :=
  ∃ n : Nat, ∀ folio : Option String, (strOfFolio folio).length = n

/-! ## Helper lemmas -/

theorem toNat_ofNat_valid (n : Nat) (h : n.isValidChar) :
    (Char.ofNat n).toNat = n := by
  rw [Char.ofNat, dif_pos h]
  rfl

theorem charToLower_idem (c : Char) :
    charToLower (charToLower c) = charToLower c := by
  unfold charToLower
  by_cases h : 65 ≤ c.toNat ∧ c.toNat ≤ 90
  · rw [if_pos h]
    have hv : (c.toNat + 32).isValidChar := Or.inl (by omega)
    have ht : (Char.ofNat (c.toNat + 32)).toNat = c.toNat + 32 :=
      toNat_ofNat_valid _ hv
    rw [if_neg]
    rw [ht]
    omega
  · rw [if_neg h, if_neg h]

theorem strToLower_idem (s : String) :
    strToLower (strToLower s) = strToLower s := by
  unfold strToLower
  simp [List.map_map, Function.comp_def, charToLower_idem]

theorem charToLower_of_space (c : Char) (h : isSpaceChar c = true) :
    charToLower c = c := by
  unfold isSpaceChar at h
  simp only [Bool.or_eq_true, beq_iff_eq] at h
  rcases h with ((((h | h) | h) | h) | h) | h <;> subst h <;> decide

theorem isSpaceChar_charToLower (c : Char) (h : isSpaceChar c = true) :
    isSpaceChar (charToLower c) = true := by
  rw [charToLower_of_space c h]
  exact h

theorem pySplitAux_all_space (cs : List Char)
    (h : ∀ c ∈ cs, isSpaceChar c = true) : pySplitAux [] cs = [] := by
  induction cs with
  | nil => rfl
  | cons c cs ih =>
    have hc : isSpaceChar c = true := h c (List.mem_cons_self c cs)
    unfold pySplitAux
    rw [if_pos hc]
    simp only [List.isEmpty_nil, if_pos rfl]
    exact ih (fun d hd => h d (List.mem_cons_of_mem c hd))

theorem searchCol_eq (d : Option String) :
    searchCol d = strToLower (d.getD "") := by
  cases d with
  | none => rfl
  | some s => rfl

theorem mkRow_search_col (r : RawRow) :
    (mkRow r).search_col = searchCol r.abdesc := rfl

/-! ## Claim theorems -/

/-- C1: for every non-empty query and every loaded row, the filter keeps
the row iff every whitespace-separated, lowercased token of the query
occurs as a substring of the row's lowercase description (AND semantics
over tokens, substring match). -/
theorem c1_filter_iff_all_tokens (query : String) (raws : List RawRow)
    (raw : RawRow) (_hq : query ≠ "") :
    mkRow raw ∈ filterRows query (raws.map mkRow) ↔
      mkRow raw ∈ raws.map mkRow ∧
        ∀ kw ∈ pySplit (strToLower query),
          strContains (strToLower (raw.abdesc.getD "")) kw = true := by
  unfold filterRows
  rw [List.mem_filter, List.all_eq_true]
  rw [mkRow_search_col, searchCol_eq]

/-- Witness for C1 at the query `"motor"` and a one-row table. -/
theorem c1_filter_iff_all_tokens_witness :
    "motor" ≠ "" ∧
      (mkRow ⟨some "F1", none, some "Motor X", none, none⟩ ∈
          filterRows "motor"
            ([(⟨some "F1", none, some "Motor X", none, none⟩ : RawRow)].map
              mkRow) ↔
        mkRow ⟨some "F1", none, some "Motor X", none, none⟩ ∈
            [(⟨some "F1", none, some "Motor X", none, none⟩ : RawRow)].map
              mkRow ∧
          ∀ kw ∈ pySplit (strToLower "motor"),
            strContains
              (strToLower ((some "Motor X" : Option String).getD "")) kw =
              true) :=
  ⟨by decide,
    c1_filter_iff_all_tokens "motor"
      [⟨some "F1", none, some "Motor X", none, none⟩]
      ⟨some "F1", none, some "Motor X", none, none⟩ (by decide)⟩

/-- C2: with a non-empty loaded table, the empty query yields the
awaiting-input prompt state, not the full unfiltered dataset: no
filtering runs and no rows are returned. -/
theorem c2_empty_query_awaits (encode : Encoder) (df : List Row)
    (hdf : df ≠ []) : appView encode df "" = AppView.awaitingQuery := by
  unfold appView
  rw [if_neg, if_pos rfl]
  simpa using hdf

/-- Witness for C2 at a one-row table. -/
theorem c2_empty_query_awaits_witness :
    [mkRow ⟨none, none, none, none, none⟩] ≠ ([] : List Row) ∧
      appView code128Model [mkRow ⟨none, none, none, none, none⟩] "" =
        AppView.awaitingQuery :=
  ⟨by decide,
    c2_empty_query_awaits code128Model [mkRow ⟨none, none, none, none, none⟩]
      (by decide)⟩

/-- C3: on any fetch/parse failure, `load_data` returns an empty table and
surfaces a user-facing error message; being a total function of the fetch
outcome, it raises nothing to the caller. -/
theorem c3_load_failure_empty_with_message (e : String) :
    (load_data (Except.error e)).1 = [] ∧
      ((load_data (Except.error e)).2).isSome = true :=
  ⟨rfl, rfl⟩

/-- C4: when the symbology rejects a folio, the renderer yields no image
(`none`), that row is rendered with the warning cell, and every other row
is still rendered (the loop is not aborted); `generate_barcode` is total,
so no exception escapes it. -/
theorem c4_barcode_failure_isolated (encode : Encoder) (rows : List Row)
    (r : Row) (e : String) (hr : r ∈ rows)
    (hfail : encode (strOfFolio r.folioRebuss) barcodeOptions =
      Except.error e) :
    generate_barcode encode r.folioRebuss = none ∧
      RenderedRow.mk r none ∈ renderAll encode rows ∧
      (renderAll encode rows).length = rows.length := by
  have hgen : generate_barcode encode r.folioRebuss = none := by
    unfold generate_barcode
    rw [hfail]
  refine ⟨hgen, ?_, ?_⟩
  · have hrr : renderRow encode r = RenderedRow.mk r none := by
      unfold renderRow
      rw [hgen]
    rw [← hrr]
    exact List.mem_map_of_mem (renderRow encode) hr
  · unfold renderAll
    exact List.length_map rows (renderRow encode)

/-- Witness for C4: a folio with a non-ASCII character, rejected by the
modelled Code128 encoder, in a one-row table. -/
theorem c4_barcode_failure_isolated_witness :
    mkRow ⟨some "ñ", none, none, none, none⟩ ∈
        [mkRow ⟨some "ñ", none, none, none, none⟩] ∧
      code128Model
          (strOfFolio (mkRow ⟨some "ñ", none, none, none, none⟩).folioRebuss)
          barcodeOptions =
        Except.error "character not encodable in Code128" ∧
      (generate_barcode code128Model
          (mkRow ⟨some "ñ", none, none, none, none⟩).folioRebuss = none ∧
        RenderedRow.mk (mkRow ⟨some "ñ", none, none, none, none⟩) none ∈
          renderAll code128Model [mkRow ⟨some "ñ", none, none, none, none⟩] ∧
        (renderAll code128Model
            [mkRow ⟨some "ñ", none, none, none, none⟩]).length =
          [mkRow ⟨some "ñ", none, none, none, none⟩].length) :=
  ⟨by decide, by rfl,
    c4_barcode_failure_isolated code128Model
      [mkRow ⟨some "ñ", none, none, none, none⟩]
      (mkRow ⟨some "ñ", none, none, none, none⟩)
      "character not encodable in Code128" (by decide) (by rfl)⟩

/-- C5 (counterexample): the renderer does not pad the folio to a fixed
digit length — the folios `"5"` and `"12"` are encoded as strings of
lengths 1 and 2 (line 52 passes `str(folio)` unchanged). -/
theorem c5_no_fixed_length_padding : ¬ padsToFixedLength := by
  intro h
  obtain ⟨n, hn⟩ := h
  have h1 : (strOfFolio (some "5")).length = n := hn (some "5")
  have h2 : (strOfFolio (some "12")).length = n := hn (some "12")
  simp only [strOfFolio] at h1 h2
  rw [show ("5" : String).length = 1 from rfl] at h1
  rw [show ("12" : String).length = 2 from rfl] at h2
  omega

/-- C5 (amended): the renderer encodes the raw folio string with no
padding, and an all-numeric folio (codepoints 48–57) produces a non-empty
barcode image under the Code128 symbology actually used. -/
theorem c5_raw_numeric_folio_encodes (folio : String) (hne : folio ≠ "")
    (hdig : ∀ c ∈ folio.data, 48 ≤ c.toNat ∧ c.toNat ≤ 57) :
    strOfFolio (some folio) = folio ∧
      ∃ b : Buffer, b ≠ [] ∧
        generate_barcode code128Model (some folio) = some b := by
  refine ⟨rfl, folio.data.map Char.toNat, ?_, ?_⟩
  · have hd : folio.data ≠ [] := by
      intro hdata
      exact hne (by cases folio; simp_all)
    simp [hd]
  · have hcond : folio ≠ "" ∧ ∀ c ∈ folio.data, c.toNat < 128 := by
      refine ⟨hne, fun c hc => ?_⟩
      have := hdig c hc
      omega
    unfold generate_barcode code128Model
    simp only [strOfFolio]
    rw [if_pos hcond]

/-- Witness for C5 (amended) at the folio `"5"`. -/
theorem c5_raw_numeric_folio_encodes_witness :
    "5" ≠ "" ∧ (∀ c ∈ ("5" : String).data, 48 ≤ c.toNat ∧ c.toNat ≤ 57) ∧
      (strOfFolio (some "5") = "5" ∧
        ∃ b : Buffer, b ≠ [] ∧
          generate_barcode code128Model (some "5") = some b) :=
  ⟨by decide, by decide,
    c5_raw_numeric_folio_encodes "5" (by decide) (by decide)⟩

/-- C6: the renderer hands the raw folio string, unpadded, to the
variable-length alphanumeric symbology with the human-readable-text
option on, and a folio containing letters (ASCII text) produces a
non-empty barcode image. -/
theorem c6_letters_valid_image (folio : String)
    (hletter : ∃ c ∈ folio.data, c.isAlpha = true)
    (hascii : ∀ c ∈ folio.data, c.toNat < 128) :
    strOfFolio (some folio) = folio ∧
      barcodeOptions.write_text = true ∧
      ∃ b : Buffer, b ≠ [] ∧
        generate_barcode code128Model (some folio) = some b := by
  obtain ⟨c0, hc0, _⟩ := hletter
  have hne : folio ≠ "" := by
    intro hfe
    subst hfe
    simp at hc0
  refine ⟨rfl, rfl, folio.data.map Char.toNat, ?_, ?_⟩
  · have hd : folio.data ≠ [] := List.ne_nil_of_mem hc0
    simp [hd]
  · unfold generate_barcode code128Model
    simp only [strOfFolio]
    rw [if_pos ⟨hne, hascii⟩]

/-- Witness for C6 at the folio `"AB12"`. -/
theorem c6_letters_valid_image_witness :
    (∃ c ∈ ("AB12" : String).data, c.isAlpha = true) ∧
      (∀ c ∈ ("AB12" : String).data, c.toNat < 128) ∧
      (strOfFolio (some "AB12") = "AB12" ∧
        barcodeOptions.write_text = true ∧
        ∃ b : Buffer, b ≠ [] ∧
          generate_barcode code128Model (some "AB12") = some b) :=
  ⟨by decide, by decide,
    c6_letters_valid_image "AB12" (by decide) (by decide)⟩

/-- C7: after loading, every row's `search_col` is the (always defined)
lowercasing of its description with a missing description treated as the
empty string — the search column is never absent. -/
theorem c7_search_col_never_absent (raw : RawRow) :
    (mkRow raw).search_col = strToLower (raw.abdesc.getD "") := by
  rw [mkRow_search_col, searchCol_eq]

/-- C8: the query `"motor partida"` matches the row described
`"motor de partida 12v"` and not the row described
`"motor de arranque"`. -/
theorem c8_motor_partida_example :
    filterRows "motor partida"
      [mkRow ⟨some "F1", some "A1", some "motor de partida 12v", some "S1",
         some "P1"⟩,
       mkRow ⟨some "F2", some "A2", some "motor de arranque", some "S2",
         some "P2"⟩] =
      [mkRow ⟨some "F1", some "A1", some "motor de partida 12v", some "S1",
         some "P1"⟩] := by
  decide

/-- C9: a non-empty query of only whitespace tokenizes to zero keywords,
the per-row condition holds vacuously, and the app shows the full loaded
dataset as results — not the awaiting-input state. -/
theorem c9_whitespace_query_full_dataset (encode : Encoder)
    (df : List Row) (query : String) (hdf : df ≠ []) (hq : query ≠ "")
    (hsp : ∀ c ∈ query.data, isSpaceChar c = true) :
    appView encode df query = AppView.results (renderAll encode df) := by
  have htok : pySplit (strToLower query) = [] := by
    have hmap : ∀ c ∈ query.data.map charToLower, isSpaceChar c = true := by
      intro c hc
      simp only [List.mem_map] at hc
      obtain ⟨a, ha, rfl⟩ := hc
      exact isSpaceChar_charToLower a (hsp a ha)
    unfold pySplit strToLower
    rw [show (String.mk (query.data.map charToLower)).data =
          query.data.map charToLower from rfl]
    rw [pySplitAux_all_space _ hmap]
    rfl
  have hfilter : filterRows query df = df := by
    unfold filterRows
    rw [htok]
    simp
  unfold appView
  rw [if_neg, if_neg hq, hfilter]
  simpa using hdf

/-- Witness for C9 at the query `" "` and a one-row table. -/
theorem c9_whitespace_query_full_dataset_witness :
    [mkRow ⟨none, none, none, none, none⟩] ≠ ([] : List Row) ∧
      (" " : String) ≠ "" ∧
      (∀ c ∈ (" " : String).data, isSpaceChar c = true) ∧
      appView code128Model [mkRow ⟨none, none, none, none, none⟩] " " =
        AppView.results
          (renderAll code128Model [mkRow ⟨none, none, none, none, none⟩]) :=
  ⟨by decide, by decide, by decide,
    c9_whitespace_query_full_dataset code128Model
      [mkRow ⟨none, none, none, none, none⟩] " " (by decide) (by decide)
      (by decide)⟩

/-- C10: the filter is case-insensitive in the query — lowercasing the
query first returns exactly the same rows, for every query and dataset. -/
theorem c10_query_case_insensitive (query : String) (df : List Row) :
    filterRows (strToLower query) df = filterRows query df := by
  unfold filterRows
  rw [strToLower_idem]

end Buscador
